import Mathlib

/-!
Verification of the quran-recite-bot conversation core.

Shallow embedding of the Go sources:
* `internal/adapter/telegram` (`parseAyahID`, `formatRecordingsList` pagination,
  digit-buffer handlers `handleDigitInput` / `handleClearDigit` / `handleAyahDone`),
* `internal/application/service.go` (`HandleStart`, `HandleSurahSelection`,
  `HandleAyahInput`, `HandleRecording`),
* `internal/adapter/quranapi/client.go` (`mapRecording`).

Go strings are modelled as Lean `String`/`List Char`; the theorems below only
quantify over ASCII inputs, where Go byte indexing and Lean character indexing
coincide.  Go `float64` fields are never computed with in the embedded code
(they are only copied), so they are modelled by `Rat`.
-/

namespace QuranBot

/-! ### Locator (ayah id) scanning — `parseAyahID` in the telegram adapter

`parseAyahID` calls `fmt.Sscanf(half, "%d", &out)` on each 3-byte half and
ignores the returned error, so `out` keeps its zero value when the scan fails.
`scanIntL` models the `%d` verb of `Sscanf`: skip leading scanner whitespace
(Go's space table minus the newline: a lone `\n` is a scan error for
`Sscanf`, which likewise leaves the variable at 0 — the same outcome as a
non-digit, so it needs no special case here; an `\r` before a `\n` is
consumed and the `\n` then errors, again 0), an optional sign, then a
maximal run of ASCII decimal digits; no digit means the variable is left
untouched (0). -/

/-- The `fmt` scanner's whitespace (space table of fmt/scan.go) without the
newline: space, tab, vertical tab, form feed, carriage return, and the
Unicode space runes. -/
def isScanSpace (c : Char) : Bool :=
  c == ' ' || c == '\t' || c == '\x0B' || c == '\x0C' || c == '\r' ||
  c == '\x85' || c == '\xA0' || c.toNat == 0x1680 ||
  (0x2000 ≤ c.toNat && c.toNat ≤ 0x200A) ||
  c.toNat == 0x2028 || c.toNat == 0x2029 || c.toNat == 0x202F ||
  c.toNat == 0x205F || c.toNat == 0x3000

/-- Decimal value of a digit run (most significant first). -/
def digitsVal (l : List Char) : Nat :=
  l.foldl (fun a c => 10 * a + (c.toNat - 48)) 0

/-- `%d` digit-run scan: `none` when the input does not start with a digit. -/
def scanDigits (l : List Char) : Option Nat :=
  if (l.takeWhile Char.isDigit).isEmpty then none
  else some (digitsVal (l.takeWhile Char.isDigit))

/-- Result of `fmt.Sscanf(s, "%d", &v)` with the error ignored (`v` stays 0 on
a failed scan). -/
def scanIntL (l : List Char) : Int :=
  match l.dropWhile isScanSpace with
  | [] => 0
  | x :: t =>
    if x = '-' then - Int.ofNat ((scanDigits t).getD 0)
    else if x = '+' then Int.ofNat ((scanDigits t).getD 0)
    else Int.ofNat ((scanDigits (x :: t)).getD 0)

/-- `parseAyahID` (telegram adapter): length check, then a `%d` scan of each
3-character half. -/
def parseAyahIDL (l : List Char) : Int × Int :=
  if l.length ≠ 6 then (0, 0)
  else (scanIntL (l.take 3), scanIntL (l.drop 3))

def parseAyahID (s : String) : Int × Int := parseAyahIDL s.data

/-- The ASCII digit character for `k % 10`-style arguments below. -/
def dchar (k : Nat) : Char :=
  if k = 0 then '0' else if k = 1 then '1' else if k = 2 then '2'
  else if k = 3 then '3' else if k = 4 then '4' else if k = 5 then '5'
  else if k = 6 then '6' else if k = 7 then '7' else if k = 8 then '8' else '9'

/-- Three-digit zero-padded decimal rendering (`%03d` for values `≤ 999`). -/
def pad3 (n : Nat) : List Char :=
  [dchar (n / 100 % 10), dchar (n / 10 % 10), dchar (n % 10)]

/-- Modelled from the spec: `domain.FormatAyahID` is not under `src/` (only its
callers are).  The spec's locator wire format: six ASCII digits, first three =
passage (surah) number zero-padded, last three = sub-unit (ayah) number
zero-padded. -/
def FormatAyahID (surah ayah : Nat) : String :=
  String.mk (pad3 surah ++ pad3 ayah)

lemma dchar_spec (k : Nat) (h : k < 10) :
    (dchar k).isDigit = true ∧ (dchar k).toNat = 48 + k ∧
    isScanSpace (dchar k) = false ∧ dchar k ≠ '-' ∧ dchar k ≠ '+' := by
  interval_cases k <;> exact ⟨rfl, rfl, by decide, by decide, by decide⟩

lemma scanIntL_digits3 (a b c : Nat) (ha : a < 10) (hb : b < 10) (hc : c < 10) :
    scanIntL [dchar a, dchar b, dchar c] = Int.ofNat (100 * a + 10 * b + c) := by
  obtain ⟨da, ta, sa, ma, pa⟩ := dchar_spec a ha
  obtain ⟨db, tb, sb, -, -⟩ := dchar_spec b hb
  obtain ⟨dc, tc, sc, -, -⟩ := dchar_spec c hc
  unfold scanIntL
  simp only [List.dropWhile_cons, sa, Bool.false_eq_true, if_false]
  rw [if_neg ma, if_neg pa]
  simp [scanDigits, digitsVal, da, db, dc, ta, tb, tc]
  omega

/-- `%d` scan of a 3-digit zero-padded rendering recovers the value. -/
lemma scanIntL_pad3 (n : Nat) (h : n ≤ 999) : scanIntL (pad3 n) = Int.ofNat n := by
  unfold pad3
  rw [scanIntL_digits3 _ _ _ (Nat.mod_lt _ (by norm_num)) (Nat.mod_lt _ (by norm_num))
    (Nat.mod_lt _ (by norm_num))]
  congr 1
  omega

/-- **C2.** For every passage `p` and sub-unit `n` in the locator's 3-digit
range (which contains the spec's `1..passage_count` and `1..subunit_count(p)`),
decoding the encoded locator returns exactly `(p, n)`: `parseAyahID`
(telegram adapter) is a left inverse of the spec-modelled `FormatAyahID` on
valid passage/sub-unit pairs. -/
theorem claim_C2_locator_roundtrip (p n : Nat)
    (hp1 : 1 ≤ p) (hp2 : p ≤ 999) (hn1 : 1 ≤ n) (hn2 : n ≤ 999) :
    parseAyahID (FormatAyahID p n) = (Int.ofNat p, Int.ofNat n) := by
  have hdata : (FormatAyahID p n).data = pad3 p ++ pad3 n := rfl
  unfold parseAyahID parseAyahIDL
  rw [hdata]
  have hlen : (pad3 p ++ pad3 n).length = 6 := by simp [pad3]
  rw [if_neg (by omega)]
  have htake : (pad3 p ++ pad3 n).take 3 = pad3 p := by simp [pad3]
  have hdrop : (pad3 p ++ pad3 n).drop 3 = pad3 n := by simp [pad3]
  rw [htake, hdrop, scanIntL_pad3 p hp2, scanIntL_pad3 n hn2]

/-- **C2 witness.** Concrete instance: surah 2, ayah 255. -/
theorem claim_C2_witness :
    parseAyahID (FormatAyahID 2 255) = (Int.ofNat 2, Int.ofNat 255) :=
  claim_C2_locator_roundtrip 2 255 (by decide) (by decide) (by decide) (by decide)

/-- A character at which a `%d` scan cannot even start: not scanner
whitespace, not a sign, not a digit.  (A newline falls under this case:
`Sscanf` errors on it and leaves the output at 0.) -/
def scanBlocked (c : Char) : Bool :=
  !isScanSpace c && c != '-' && c != '+' && !c.isDigit

lemma scanIntL_blocked (x : Char) (t : List Char) (hx : scanBlocked x = true) :
    scanIntL (x :: t) = 0 := by
  simp only [scanBlocked, Bool.and_eq_true, Bool.not_eq_true', bne_iff_ne, ne_eq] at hx
  obtain ⟨⟨⟨hs, hm⟩, hp⟩, hd⟩ := hx
  unfold scanIntL
  simp only [List.dropWhile_cons, hs, Bool.false_eq_true, if_false]
  rw [if_neg hm, if_neg hp]
  simp [scanDigits, hd]

/-- **C3 counterexample.** The length-6 input `"12x45y"` contains non-digit
characters, yet the decoder returns `(12, 45)` rather than the claimed
`(0, 0)`: `fmt.Sscanf` with `%d` accepts a numeric *prefix* of each half. -/
theorem claim_C3_counterexample :
    parseAyahID "12x45y" = (12, 45) ∧ ((12 : Int), (45 : Int)) ≠ ((0 : Int), (0 : Int)) :=
  ⟨by decide, by decide⟩

/-- **C3 (amended).** For ASCII inputs (where Go byte indexing and Lean
character indexing coincide): a string whose length is not 6 decodes to
`(0, 0)`; a length-6 string decodes to `(0, 0)` whenever each half starts
with a character that is neither scanner whitespace, nor a sign, nor a digit
(in particular any all-letter input, and a lone newline also blocks the
scan).  A half with a numeric prefix — possibly after whitespace or a sign —
decodes to that prefix value even when non-digits follow. -/
theorem claim_C3_amended (s : String) (hascii : ∀ c ∈ s.data, c.toNat < 128) :
    (s.length ≠ 6 → parseAyahID s = (0, 0)) ∧
    (∀ x0 x1 x2 x3 x4 x5 : Char, s.data = [x0, x1, x2, x3, x4, x5] →
      scanBlocked x0 = true → scanBlocked x3 = true → parseAyahID s = (0, 0)) := by
  constructor
  · intro hlen
    unfold parseAyahID parseAyahIDL
    rw [if_pos]
    exact hlen
  · intro x0 x1 x2 x3 x4 x5 hdata hb0 hb3
    unfold parseAyahID parseAyahIDL
    rw [hdata]
    simp only [List.length_cons, List.length_nil]
    rw [if_neg (by omega)]
    have htake : List.take 3 [x0, x1, x2, x3, x4, x5] = [x0, x1, x2] := rfl
    have hdrop : List.drop 3 [x0, x1, x2, x3, x4, x5] = [x3, x4, x5] := rfl
    rw [htake, hdrop, scanIntL_blocked x0 _ hb0, scanIntL_blocked x3 _ hb3]

/-- **C3 witness.** `"abc"` (wrong length) and `"abcdef"` (length 6, letters
only) both decode to `(0, 0)`. -/
theorem claim_C3_witness :
    parseAyahID "abc" = (0, 0) ∧ parseAyahID "abcdef" = (0, 0) :=
  ⟨(claim_C3_amended "abc" (by decide)).1 (by decide),
   (claim_C3_amended "abcdef" (by decide)).2 'a' 'b' 'c' 'd' 'e' 'f'
     (by decide) (by decide) (by decide)⟩

/-! ### Session state machine — `internal/application/service.go`

The FSM port (Redis adapter) is modelled as a `Session` record plus a failure
script for writes: the session holds the per-user keys (`state` plus the
`surah`/`ayah`/`ayah_input`/`language` data keys), a `none` field is a key
that is absent or expired (reads of it fail with the store's not-found error,
matching `GetData` on a missing key), and the boolean script decides, write by
write, whether that store write's I/O fails (leaving the stored session
unchanged).  Reads are only absent-key failures; an exhausted script means the
remaining writes succeed. -/

inductive BotState
  | start
  | selectSurah
  | enterAyah
  | waitRecording
  | waitAutoDetect
  | processing
deriving DecidableEq

structure Session where
  state : Option BotState
  surah : Option String
  ayah : Option String
  ayahInput : Option String
  language : Option String
deriving DecidableEq

/-- One store write driven by the failure script.  Result: (did the write
succeed, session afterwards, rest of the script). -/
def writeW (upd : Session → Session) (s : Session) (fs : List Bool) :
    Bool × Session × List Bool :=
  match fs with
  | [] => (true, upd s, [])
  | b :: r => if b then (false, s, r) else (true, upd s, r)

/-- `strconv.Atoi`: optional sign, at least one ASCII digit, and the whole
string must be digits.  (Go's overflow clamping is not modelled; every value
of interest here has at most three digits.) -/
def atoi (s : String) : Option Int :=
  match s.data with
  | [] => none
  | x :: t =>
    if x = '-' then
      if t ≠ [] ∧ t.all Char.isDigit then some (-(Int.ofNat (digitsVal t))) else none
    else if x = '+' then
      if t ≠ [] ∧ t.all Char.isDigit then some (Int.ofNat (digitsVal t)) else none
    else if (x :: t).all Char.isDigit then some (Int.ofNat (digitsVal (x :: t))) else none

/-- `domain.Surah` (chapter record: number, name, ayah count). -/
structure Surah where
  number : Int
  name : String
  ayahs : Int
deriving DecidableEq

def defaultSurah : Surah := ⟨0, "", 0⟩

/-- `BotService.HandleStart`: set state to `StateSelectSurah`, then store the
caller-supplied language.  (It performs no other writes: the `surah`, `ayah`
and `ayah_input` keys are untouched.) -/
def handleStart (lang : String) (s : Session) (fs : List Bool) :
    Except String Unit × Session × List Bool :=
  let w1 := writeW (fun s => { s with state := some BotState.selectSurah }) s fs
  if w1.1 then
    let w2 := writeW (fun s => { s with language := some lang }) w1.2.1 w1.2.2
    if w2.1 then (Except.ok (), w2.2.1, w2.2.2)
    else (Except.error "set language", w2.2.1, w2.2.2)
  else (Except.error "set state", w1.2.1, w1.2.2)

/-- `BotService.HandleSurahSelection`: validate the surah number against the
table (`domain.GetAllSurahs()`, passed here as the `surahs` parameter since
the table's data file is not under `src/`), store it, then advance the state
to `StateEnterAyah`. -/
def handleSurahSelection (surahs : List Surah) (surahNumber : Int) (s : Session)
    (fs : List Bool) : Except String Unit × Session × List Bool :=
  if surahNumber < 1 ∨ surahNumber > (surahs.length : Int) then
    (Except.error "invalid surah number", s, fs)
  else
    let w1 := writeW (fun s => { s with surah := some (toString surahNumber) }) s fs
    if w1.1 then
      let w2 := writeW (fun s => { s with state := some BotState.enterAyah }) w1.2.1 w1.2.2
      if w2.1 then (Except.ok (), w2.2.1, w2.2.2)
      else (Except.error "set state", w2.2.1, w2.2.2)
    else (Except.error "set surah", w1.2.1, w1.2.2)

/-- `BotService.HandleAyahInput`: parse the input, read and parse the stored
surah, validate both numbers, then store the ayah and advance the state to
`StateWaitRecording`.  Every validation failure returns before any write. -/
def handleAyahInput (surahs : List Surah) (input : String) (s : Session)
    (fs : List Bool) : Except String Unit × Session × List Bool :=
  match atoi input with
  | none => (Except.error "invalid ayah number", s, fs)
  | some ayahNumber =>
    match s.surah with
    | none => (Except.error "get surah", s, fs)
    | some surahStr =>
      match atoi surahStr with
      | none => (Except.error "parse surah", s, fs)
      | some surahNumber =>
        if surahNumber < 1 ∨ surahNumber > (surahs.length : Int) then
          (Except.error "invalid surah", s, fs)
        else
          let surah := surahs.getD (surahNumber - 1).toNat defaultSurah
          if ayahNumber < 1 ∨ ayahNumber > surah.ayahs then
            (Except.error "invalid ayah number range", s, fs)
          else
            let w1 := writeW (fun s => { s with ayah := some (toString ayahNumber) }) s fs
            if w1.1 then
              let w2 := writeW (fun s => { s with state := some BotState.waitRecording })
                w1.2.1 w1.2.2
              if w2.1 then (Except.ok (), w2.2.1, w2.2.2)
              else (Except.error "set state", w2.2.1, w2.2.2)
            else (Except.error "set ayah", w1.2.1, w1.2.2)

/-- `BotService.HandleRecording`: read the stored surah and ayah (their parsed
values are only used to build the locator sent to the gateway), submit to the
gateway (outcome injected as the `submit` parameter), and only on success
reset the state to `StateSelectSurah`. -/
def handleRecording (submit : Except String Unit) (s : Session) (fs : List Bool) :
    Except String Unit × Session × List Bool :=
  match s.surah with
  | none => (Except.error "get surah", s, fs)
  | some _ =>
    match s.ayah with
    | none => (Except.error "get ayah", s, fs)
    | some _ =>
      match submit with
      | Except.error _ => (Except.error "submit recording", s, fs)
      | Except.ok _ =>
        let w1 := writeW (fun s => { s with state := some BotState.selectSurah }) s fs
        if w1.1 then (Except.ok (), w1.2.1, w1.2.2)
        else (Except.error "reset state", w1.2.1, w1.2.2)

def isOkE : Except String Unit → Bool
  | Except.ok _ => true
  | Except.error _ => false

/-- A populated mid-conversation session. -/
def sessionFull : Session :=
  { state := some BotState.waitRecording, surah := some "5", ayah := some "3",
    ayahInput := some "12", language := some "en" }

/-- **C1 counterexample.** Handling `/start` on a session with a stored
surah, ayah and digit buffer resets the state and stores the language, but
the three attributes the claim says are cleared all keep their values. -/
theorem claim_C1_counterexample :
    isOkE (handleStart "en" sessionFull []).1 = true ∧
    (handleStart "en" sessionFull []).2.1.state = some BotState.selectSurah ∧
    (handleStart "en" sessionFull []).2.1.surah = some "5" ∧
    (handleStart "en" sessionFull []).2.1.ayah = some "3" ∧
    (handleStart "en" sessionFull []).2.1.ayahInput = some "12" := by
  decide

/-- **C1 (amended).** Handling the start command from any state sets the
session state to the passage-selection state and stores the caller-supplied
language (at the `/start` call sites that is the user's current language, so
it is preserved); the stored selected passage, selected sub-unit and digit
buffer are left untouched — they are not cleared. -/
theorem claim_C1_amended (lang : String) (s : Session) :
    handleStart lang s [] =
      (Except.ok (), { s with state := some BotState.selectSurah, language := some lang }, []) :=
  rfl

/-- Frame facts for `HandleAyahInput`: it never touches the digit buffer, the
stored surah or the language, and when it returns an error the state key is
unchanged (the state write is the last of its two writes). -/
lemma handleAyahInput_frame (surahs : List Surah) (input : String) (s : Session)
    (fs : List Bool) :
    (handleAyahInput surahs input s fs).2.1.ayahInput = s.ayahInput ∧
    (handleAyahInput surahs input s fs).2.1.surah = s.surah ∧
    (handleAyahInput surahs input s fs).2.1.language = s.language ∧
    (isOkE (handleAyahInput surahs input s fs).1 = false →
      (handleAyahInput surahs input s fs).2.1.state = s.state) := by
  cases hin : atoi input with
  | none =>
    simp only [handleAyahInput, hin]
    simp
  | some ayahNumber =>
    cases hsur : s.surah with
    | none =>
      simp only [handleAyahInput, hin, hsur]
      simp
    | some surahStr =>
      cases hps : atoi surahStr with
      | none =>
        simp only [handleAyahInput, hin, hsur, hps]
        simp
      | some surahNumber =>
        by_cases hval : surahNumber < 1 ∨ surahNumber > (surahs.length : Int)
        · simp only [handleAyahInput, hin, hsur, hps]
          rw [if_pos hval]
          simp [hsur]
        · by_cases hay : ayahNumber < 1 ∨
              ayahNumber > (surahs.getD (surahNumber - 1).toNat defaultSurah).ayahs
          · simp only [handleAyahInput, hin, hsur, hps]
            rw [if_neg hval, if_pos hay]
            simp [hsur]
          · simp only [handleAyahInput, hin, hsur, hps]
            rw [if_neg hval, if_neg hay]
            rcases fs with _ | ⟨b1, fs1⟩
            · simp [writeW, isOkE, hsur]
            · cases b1
              · rcases fs1 with _ | ⟨b2, fs2⟩
                · simp [writeW, isOkE, hsur]
                · cases b2 <;> simp [writeW, isOkE, hsur]
              · simp [writeW, isOkE, hsur]

/-- **C4.** In the sub-unit entry state with a chosen passage `p`, confirming
a buffer that parses to an out-of-range ayah number `n` (`n < 1` or
`n > subunit_count(p)`) returns an error and leaves the whole session — in
particular the state (still `enter_ayah`) and the stored sub-unit — exactly
as it was. -/
theorem claim_C4_invalid_subunit (surahs : List Surah) (input surahStr : String)
    (s : Session) (fs : List Bool) (n p : Int)
    (hstate : s.state = some BotState.enterAyah)
    (hin : atoi input = some n)
    (hsur : s.surah = some surahStr)
    (hps : atoi surahStr = some p)
    (hp1 : 1 ≤ p) (hp2 : p ≤ (surahs.length : Int))
    (hn : n < 1 ∨ n > (surahs.getD (p - 1).toNat defaultSurah).ayahs) :
    isOkE (handleAyahInput surahs input s fs).1 = false ∧
    (handleAyahInput surahs input s fs).2.1 = s ∧
    (handleAyahInput surahs input s fs).2.1.state = some BotState.enterAyah ∧
    (handleAyahInput surahs input s fs).2.1.ayah = s.ayah := by
  have hval : ¬ (p < 1 ∨ p > (surahs.length : Int)) := by omega
  have hres : handleAyahInput surahs input s fs
      = (Except.error "invalid ayah number range", s, fs) := by
    simp only [handleAyahInput, hin, hsur, hps]
    rw [if_neg hval, if_pos hn]
  rw [hres]
  exact ⟨rfl, rfl, hstate, rfl⟩

/-- Session used for the C4 witness: passage 1 chosen, buffer "8". -/
def sessionEnterAyah : Session :=
  { state := some BotState.enterAyah, surah := some "1", ayah := none,
    ayahInput := some "8", language := some "en" }

def oneSurah : List Surah := [⟨1, "Al-Fatihah", 7⟩]

/-- **C4 witness.** Surah 1 has 7 ayahs; confirming "8" fails and mutates
nothing. -/
theorem claim_C4_witness :
    isOkE (handleAyahInput oneSurah "8" sessionEnterAyah []).1 = false ∧
    (handleAyahInput oneSurah "8" sessionEnterAyah []).2.1 = sessionEnterAyah ∧
    (handleAyahInput oneSurah "8" sessionEnterAyah []).2.1.state = some BotState.enterAyah ∧
    (handleAyahInput oneSurah "8" sessionEnterAyah []).2.1.ayah = sessionEnterAyah.ayah :=
  claim_C4_invalid_subunit oneSurah "8" "1" sessionEnterAyah [] 8 1 (by decide) (by decide)
    (by decide) (by decide) (by decide) (by decide) (by decide)

/-- **C7.** If the gateway submission fails, `HandleRecording` returns an
error and the session — in particular its state, still `wait_recording` — is
exactly as it was before the submission, so the user may retry. -/
theorem claim_C7_submit_failure (s : Session) (fs : List Bool) (e : String)
    (hstate : s.state = some BotState.waitRecording) :
    isOkE (handleRecording (Except.error e) s fs).1 = false ∧
    (handleRecording (Except.error e) s fs).2.1 = s ∧
    (handleRecording (Except.error e) s fs).2.1.state = some BotState.waitRecording := by
  cases hsur : s.surah <;> cases hay : s.ayah <;>
    simp [handleRecording, hsur, hay, isOkE, hstate]

/-- **C7 witness.** Concrete failed submission on a populated session. -/
theorem claim_C7_witness :
    isOkE (handleRecording (Except.error "status 500") sessionFull []).1 = false ∧
    (handleRecording (Except.error "status 500") sessionFull []).2.1 = sessionFull ∧
    (handleRecording (Except.error "status 500") sessionFull []).2.1.state
      = some BotState.waitRecording :=
  claim_C7_submit_failure sessionFull [] "status 500" (by decide)

/-- A fresh session at passage selection. -/
def sessionClean : Session :=
  { state := some BotState.selectSurah, surah := none, ayah := none,
    ayahInput := none, language := some "en" }

/-- **C9 counterexample.** Passage selection writes the surah key and then
the state key.  With the first write succeeding and the second failing, the
transition errors out but the surah attribute keeps its new value `"1"` — the
session is *not* as it was before the transition began: the read-modify-write
is split across two writes with no rollback. -/
theorem claim_C9_counterexample :
    isOkE (handleSurahSelection oneSurah 1 sessionClean [false, true]).1 = false ∧
    (handleSurahSelection oneSurah 1 sessionClean [false, true]).2.1.surah = some "1" ∧
    sessionClean.surah = none := by
  decide

/-- **C9 (amended).** A failed store write aborts the rest of the transition
but already-applied writes are not rolled back.  What does hold: in passage
selection and sub-unit confirmation the state key is written last, so a
transition that reports an error never changes the `state` attribute (for the
start reset the state write comes first, so only the language write can be
lost). -/
theorem claim_C9_amended :
    (∀ (surahs : List Surah) (n : Int) (s : Session) (fs : List Bool),
      isOkE (handleSurahSelection surahs n s fs).1 = false →
        (handleSurahSelection surahs n s fs).2.1.state = s.state) ∧
    (∀ (surahs : List Surah) (input : String) (s : Session) (fs : List Bool),
      isOkE (handleAyahInput surahs input s fs).1 = false →
        (handleAyahInput surahs input s fs).2.1.state = s.state) := by
  constructor
  · intro surahs n s fs h
    by_cases hval : n < 1 ∨ n > (surahs.length : Int)
    · simp only [handleSurahSelection] at h ⊢
      rw [if_pos hval]
    · simp only [handleSurahSelection] at h ⊢
      rw [if_neg hval] at h ⊢
      rcases fs with _ | ⟨b1, fs1⟩
      · simp [writeW, isOkE] at h
      · cases b1
        · rcases fs1 with _ | ⟨b2, fs2⟩
          · simp [writeW, isOkE] at h
          · cases b2
            · simp [writeW, isOkE] at h
            · simp [writeW, isOkE]
        · simp [writeW, isOkE]
  · intro surahs input s fs h
    exact (handleAyahInput_frame surahs input s fs).2.2.2 h

/-- **C9 amended witness.** A failed write during passage selection and a
failed sub-unit confirmation both leave the state attribute unchanged. -/
theorem claim_C9_witness :
    (handleSurahSelection oneSurah 1 sessionClean [true]).2.1.state = sessionClean.state ∧
    (handleAyahInput oneSurah "8" sessionEnterAyah [true]).2.1.state
      = sessionEnterAyah.state := by
  have h := claim_C9_amended
  exact ⟨h.1 oneSurah 1 sessionClean [true] (by decide),
         h.2 oneSurah "8" sessionEnterAyah [true] (by decide)⟩

/-! ### Digit buffer handlers — `handleDigitInput` / `handleClearDigit` /
`handleAyahDone` in the telegram adapter

`GetAyahInput` returns `""` when the key is missing or the read fails, which
is `Option.getD ""` here.  The keyboard's digit payloads are the single
characters "0".."9"; the handler itself receives the payload tail as a string.
Go's `currentInput[:len-1]` slices off the last byte, i.e. drops the last
character of the ASCII buffer. -/

def bufLen (s : Session) : Nat := (s.ayahInput.getD "").length

/-- `handleDigitInput`: append the pressed digit only while the buffer is
shorter than 3; the subsequent keyboard re-render performs no session writes. -/
def handleDigitInput (digit : String) (s : Session) (fs : List Bool) :
    Session × List Bool :=
  let cur := s.ayahInput.getD ""
  if cur.length < 3 then
    (writeW (fun s => { s with ayahInput := some (cur ++ digit) }) s fs).2
  else (s, fs)

/-- `handleClearDigit` (backspace): drop the last character while non-empty. -/
def handleClearDigit (s : Session) (fs : List Bool) : Session × List Bool :=
  let cur := s.ayahInput.getD ""
  if 0 < cur.length then
    (writeW (fun s => { s with ayahInput := some (String.mk cur.data.dropLast) }) s fs).2
  else (s, fs)

/-- `handleAyahDone` (confirm): an empty buffer only re-renders; otherwise run
`HandleAyahInput` and, only on success, delete the `ayah_input` key
(`ClearAyahInput`, whose own error is ignored). -/
def handleAyahDone (surahs : List Surah) (s : Session) (fs : List Bool) :
    Session × List Bool :=
  let input := s.ayahInput.getD ""
  if input = "" then (s, fs)
  else
    let r := handleAyahInput surahs input s fs
    if isOkE r.1 then
      (writeW (fun s => { s with ayahInput := none }) r.2.1 r.2.2).2
    else r.2

/-- A store write either fails (session kept) or applies its update. -/
lemma writeW_cases (upd : Session → Session) (s : Session) (fs : List Bool) :
    (writeW upd s fs).2.1 = s ∨ (writeW upd s fs).2.1 = upd s := by
  rcases fs with _ | ⟨b, r⟩
  · right; rfl
  · cases b
    · right; rfl
    · left; rfl

/-- **C8.** A digit press appends the pressed digit (a single character) only
while the buffer length is strictly below 3 and otherwise leaves the session
unchanged; consequently every buffer operation — digit press, backspace and
confirm — preserves the invariant that the buffer never exceeds 3 characters
(regardless of which store writes fail). -/
theorem claim_C8_buffer_invariant :
    (∀ (d : String) (s : Session) (fs : List Bool),
      ¬ bufLen s < 3 → handleDigitInput d s fs = (s, fs)) ∧
    (∀ (d : String) (s : Session), bufLen s < 3 →
      (handleDigitInput d s []).1.ayahInput = some ((s.ayahInput.getD "") ++ d)) ∧
    (∀ (d : String) (s : Session) (fs : List Bool), d.length = 1 → bufLen s ≤ 3 →
      bufLen (handleDigitInput d s fs).1 ≤ 3) ∧
    (∀ (s : Session) (fs : List Bool), bufLen s ≤ 3 →
      bufLen (handleClearDigit s fs).1 ≤ 3) ∧
    (∀ (surahs : List Surah) (s : Session) (fs : List Bool), bufLen s ≤ 3 →
      bufLen (handleAyahDone surahs s fs).1 ≤ 3) := by
  refine ⟨?_, ?_, ?_, ?_, ?_⟩
  · intro d s fs h
    simp only [handleDigitInput]
    rw [if_neg (by simpa [bufLen] using h)]
  · intro d s h
    simp only [handleDigitInput]
    rw [if_pos (by simpa [bufLen] using h)]
    simp [writeW]
  · intro d s fs hd h
    by_cases hlt : (s.ayahInput.getD "").length < 3
    · simp only [handleDigitInput]
      rw [if_pos hlt]
      rcases writeW_cases (fun s_1 =>
          { s_1 with ayahInput := some ((s.ayahInput.getD "") ++ d) }) s fs with hw | hw
      · rw [bufLen, hw]
        exact h
      · rw [bufLen, hw]
        simp only [Option.getD_some, String.length_append, hd]
        omega
    · simp only [handleDigitInput]
      rw [if_neg hlt]
      exact h
  · intro s fs h
    simp only [handleClearDigit]
    by_cases hlt : 0 < (s.ayahInput.getD "").length
    · rw [if_pos hlt]
      rcases writeW_cases (fun s_1 =>
          { s_1 with ayahInput := some (String.mk (s.ayahInput.getD "").data.dropLast) })
          s fs with hw | hw
      · rw [bufLen, hw]
        exact h
      · rw [bufLen, hw]
        simp only [Option.getD_some]
        have hdl : (String.mk (s.ayahInput.getD "").data.dropLast).length
            = (s.ayahInput.getD "").length - 1 := by
          show (s.ayahInput.getD "").data.dropLast.length = _
          rw [List.length_dropLast]
          rfl
        rw [bufLen] at h
        omega
    · rw [if_neg hlt]
      exact h
  · intro surahs s fs h
    simp only [handleAyahDone]
    by_cases hempty : s.ayahInput.getD "" = ""
    · rw [if_pos hempty]
      exact h
    · rw [if_neg hempty]
      have hpres := (handleAyahInput_frame surahs (s.ayahInput.getD "") s fs).1
      by_cases hok : isOkE (handleAyahInput surahs (s.ayahInput.getD "") s fs).1 = true
      · rw [if_pos hok]
        rcases writeW_cases (fun s_1 => { s_1 with ayahInput := none })
            (handleAyahInput surahs (s.ayahInput.getD "") s fs).2.1
            (handleAyahInput surahs (s.ayahInput.getD "") s fs).2.2 with hw | hw
        · rw [bufLen, hw, hpres]
          exact h
        · rw [bufLen, hw]
          simp
      · rw [if_neg hok]
        rw [bufLen, hpres]
        exact h

/-- **C8 witness.** Buffer "12": pressing "5" yields "125" (≤ 3); a full
buffer "125" is left unchanged by a further press; backspace and confirm keep
the bound. -/
theorem claim_C8_witness :
    handleDigitInput "9" { sessionEnterAyah with ayahInput := some "125" } []
      = ({ sessionEnterAyah with ayahInput := some "125" }, []) ∧
    (handleDigitInput "5" { sessionEnterAyah with ayahInput := some "12" } []).1.ayahInput
      = some "125" ∧
    bufLen (handleDigitInput "5" { sessionEnterAyah with ayahInput := some "12" } []).1 ≤ 3 ∧
    bufLen (handleClearDigit { sessionEnterAyah with ayahInput := some "125" } []).1 ≤ 3 ∧
    bufLen (handleAyahDone oneSurah sessionEnterAyah []).1 ≤ 3 := by
  have h := claim_C8_buffer_invariant
  refine ⟨h.1 "9" _ [] (by decide), ?_, h.2.2.1 "5" _ [] (by decide) (by decide),
    h.2.2.2.1 _ [] (by decide), h.2.2.2.2 oneSurah _ [] (by decide)⟩
  have h2 := h.2.1 "5" { sessionEnterAyah with ayahInput := some "12" } (by decide)
  simpa using h2

/-! ### Result normalization — `mapRecording` in the quranapi adapter

Go slice fields distinguish `nil` (JSON field absent, or never assigned) from
a present empty slice (`[]` in JSON): both have length 0, but only one is
non-nil.  They are modelled as `Option (List _)`: `none` is the nil slice.
Pointer fields (`*Statistics` etc.) are likewise `Option`.  String fields
default to `""` (the Go zero value for an absent JSON field), numbers to 0.
`time.Parse` of the timestamp strings is external and effect-free; the
timestamps are carried verbatim as strings. -/

/-- Length of a Go slice (`nil` has length 0). -/
def lenO {α : Type} (o : Option (List α)) : Nat := (o.getD []).length

structure OpResponse where
  refAr : String
  refClean : String
  hypAr : String
  hypClean : String
  op : String
  tStart : Rat
  tEnd : Rat
deriving DecidableEq

structure StatisticsResponse where
  totalWords : Int
  correct : Int
  substitutions : Int
  deletions : Int
  insertions : Int
  wer : Rat
  accuracy : Rat
deriving DecidableEq

structure AyahErrorResponse where
  type : String
  refWord : String
  hypWord : String
  position : Int
deriving DecidableEq

structure PerAyahResultResponse where
  ayahID : String
  surah : String
  ayah : String
  words : Int
  correct : Int
  substitutions : Int
  deletions : Int
  insertions : Int
  wer : Rat
  referenceText : String
  errors : Option (List AyahErrorResponse)
deriving DecidableEq

structure DetectedRangeResponse where
  startAyah : String
  endAyah : String
  totalAyahs : Int
deriving DecidableEq

/-- Wire shape `resultResponse` (client.go): auto-detect fields plus legacy
fields, all optional on the wire. -/
structure ResultResponse where
  status : String
  detectionMethod : String
  startingAyah : String
  detectionConfidence : String
  hypothesis : String
  detectedRange : Option DetectedRangeResponse
  overallStatistics : Option StatisticsResponse
  perAyahResults : Option (List PerAyahResultResponse)
  processingTime : Rat
  error : String
  suggestion : String
  transcript : String
  transcriptLength : Int
  wer : Rat
  ops : Option (List OpResponse)
deriving DecidableEq

structure RecordingResponse where
  recordingID : String
  learnerID : String
  ayahID : String
  status : String
  createdAt : String
  updatedAt : String
  result : Option ResultResponse
  error : String
deriving DecidableEq

structure Operation where
  refAr : String
  refClean : String
  hypAr : String
  hypClean : String
  op : String
  tStart : Rat
  tEnd : Rat
deriving DecidableEq

structure Statistics where
  totalWords : Int
  correct : Int
  substitutions : Int
  deletions : Int
  insertions : Int
  wer : Rat
  accuracy : Rat
deriving DecidableEq

structure AyahError where
  type : String
  refWord : String
  hypWord : String
  position : Int
deriving DecidableEq

structure PerAyahResult where
  ayahID : String
  surah : String
  ayah : String
  words : Int
  correct : Int
  substitutions : Int
  deletions : Int
  insertions : Int
  wer : Rat
  referenceText : String
  errors : Option (List AyahError)
deriving DecidableEq

structure DetectedRange where
  startAyah : String
  endAyah : String
  totalAyahs : Int
deriving DecidableEq

/-- `domain.RecordingResult` (the canonical normalized shape). -/
structure RecordingResult where
  status : String
  detectionMethod : String
  startingAyah : String
  detectionConfidence : String
  hypothesis : String
  detectedRange : Option DetectedRange
  overallStatistics : Option Statistics
  perAyahResults : Option (List PerAyahResult)
  processingTime : Rat
  error : String
  suggestion : String
  transcript : String
  transcriptLength : Int
  wer : Rat
  ops : Option (List Operation)
deriving DecidableEq

/-- `domain.Recording`. -/
structure Recording where
  id : String
  learnerID : String
  ayahID : String
  status : String
  createdAt : String
  updatedAt : String
  result : Option RecordingResult
deriving DecidableEq

def mapOp (o : OpResponse) : Operation :=
  { refAr := o.refAr, refClean := o.refClean, hypAr := o.hypAr, hypClean := o.hypClean,
    op := o.op, tStart := o.tStart, tEnd := o.tEnd }

def mapAyahError (e : AyahErrorResponse) : AyahError :=
  { type := e.type, refWord := e.refWord, hypWord := e.hypWord, position := e.position }

def mapPerAyah (p : PerAyahResultResponse) : PerAyahResult :=
  { ayahID := p.ayahID, surah := p.surah, ayah := p.ayah, words := p.words,
    correct := p.correct, substitutions := p.substitutions, deletions := p.deletions,
    insertions := p.insertions, wer := p.wer, referenceText := p.referenceText,
    errors :=
      if 0 < lenO p.errors then some ((p.errors.getD []).map mapAyahError) else none }

/-- Body of `mapRecording`'s `r.Result != nil` branch (client.go): copy the
scalar fields, map the optional pointer structs, and assign each slice field
only when its wire length is positive — otherwise it stays at its zero value,
the nil slice. -/
def mapResult (res : ResultResponse) : RecordingResult :=
  { status := res.status, detectionMethod := res.detectionMethod,
    startingAyah := res.startingAyah,
    detectionConfidence := res.detectionConfidence,
    hypothesis := res.hypothesis,
    processingTime := res.processingTime, error := res.error,
    suggestion := res.suggestion, transcript := res.transcript,
    transcriptLength := res.transcriptLength, wer := res.wer,
    detectedRange := res.detectedRange.map fun d =>
      { startAyah := d.startAyah, endAyah := d.endAyah, totalAyahs := d.totalAyahs },
    overallStatistics := res.overallStatistics.map fun st =>
      { totalWords := st.totalWords, correct := st.correct,
        substitutions := st.substitutions, deletions := st.deletions,
        insertions := st.insertions, wer := st.wer, accuracy := st.accuracy },
    perAyahResults :=
      if 0 < lenO res.perAyahResults then
        some ((res.perAyahResults.getD []).map mapPerAyah)
      else none,
    ops :=
      if 0 < lenO res.ops then some ((res.ops.getD []).map mapOp) else none }

/-- `mapRecording` (client.go). -/
def mapRecording (r : RecordingResponse) : Recording :=
  { id := r.recordingID, learnerID := r.learnerID, ayahID := r.ayahID,
    status := r.status, createdAt := r.createdAt, updatedAt := r.updatedAt,
    result := r.result.map mapResult }

lemma mapRecording_result (r : RecordingResponse) (res : ResultResponse)
    (hres : r.result = some res) :
    (mapRecording r).result = some (mapResult res) := by
  simp [mapRecording, hres]

def defOpResponse : OpResponse := ⟨"", "", "", "", "", 0, 0⟩

def defOperation : Operation := ⟨"", "", "", "", "", 0, 0⟩

/-- Element access in a Go slice (out of range yields the zero value; only
used under an in-range hypothesis). -/
def opRespAt (o : Option (List OpResponse)) (i : Nat) : OpResponse :=
  (o.getD []).getD i defOpResponse

def opAt (o : Option (List Operation)) (i : Nat) : Operation :=
  (o.getD []).getD i defOperation

lemma getD_map {α β : Type} (f : α → β) (l : List α) (dα : α) (dβ : β) :
    ∀ i : Nat, i < l.length → (l.map f).getD i dβ = f (l.getD i dα) := by
  induction l with
  | nil => intro i h; simp at h
  | cons x xs ih =>
    intro i h
    cases i with
    | zero => rfl
    | succ j =>
      simp only [List.map_cons, List.getD_cons_succ]
      exact ih j (by simpa using h)

/-- A raw result carrying only the legacy payload: no detection fields, no
nested statistics, just `wer` and a flat `ops` list. -/
def legacyOnly (res : ResultResponse) : Prop :=
  res.status = "" ∧ res.detectionMethod = "" ∧ res.startingAyah = "" ∧
  res.detectionConfidence = "" ∧ res.detectedRange = none ∧
  res.overallStatistics = none ∧ res.perAyahResults = none

/-- **C6.** Normalizing a response whose result carries only the legacy fields
(`wer` + flat `ops` list) yields a fixed-target result: the detection marker
stays empty, the overall-statistics field is absent, the operations sequence
has the same length as the wire `ops` list, and every operation's fields are
copied verbatim in order. -/
theorem claim_C6_legacy_mapping (r : RecordingResponse) (res : ResultResponse)
    (hres : r.result = some res) (hleg : legacyOnly res) :
    ∃ m : RecordingResult, (mapRecording r).result = some m ∧
      m.detectionMethod = "" ∧
      m.overallStatistics = none ∧
      lenO m.ops = lenO res.ops ∧
      ∀ i : Nat, i < lenO res.ops →
        (opAt m.ops i).refAr = (opRespAt res.ops i).refAr ∧
        (opAt m.ops i).refClean = (opRespAt res.ops i).refClean ∧
        (opAt m.ops i).hypAr = (opRespAt res.ops i).hypAr ∧
        (opAt m.ops i).hypClean = (opRespAt res.ops i).hypClean ∧
        (opAt m.ops i).op = (opRespAt res.ops i).op ∧
        (opAt m.ops i).tStart = (opRespAt res.ops i).tStart ∧
        (opAt m.ops i).tEnd = (opRespAt res.ops i).tEnd := by
  obtain ⟨h1, h2, h3, h4, h5, h6, h7⟩ := hleg
  refine ⟨mapResult res, mapRecording_result r res hres, ?_, ?_, ?_, ?_⟩
  · exact h2
  · simp [mapResult, h6]
  · by_cases hops : 0 < lenO res.ops
    · have hops' : 0 < (res.ops.getD []).length := hops
      simp only [mapResult, lenO]
      rw [if_pos hops']
      simp only [Option.getD_some, List.length_map]
    · have hops' : ¬ 0 < (res.ops.getD []).length := hops
      simp only [mapResult, lenO]
      rw [if_neg hops']
      simp only [Option.getD_none, List.length_nil]
      omega
  · intro i hi
    have hops : 0 < lenO res.ops := Nat.lt_of_le_of_lt (Nat.zero_le i) hi
    have hi' : i < (res.ops.getD []).length := hi
    have hmap : opAt (mapResult res).ops i = mapOp (opRespAt res.ops i) := by
      simp only [mapResult, if_pos hops, opAt, Option.getD_some, opRespAt]
      exact getD_map mapOp (res.ops.getD []) defOpResponse defOperation i hi'
    rw [hmap]
    exact ⟨rfl, rfl, rfl, rfl, rfl, rfl, rfl⟩

/-- Concrete legacy-only response for the C6 witness: `wer = 0`, one correct
operation. -/
def legacyResult : ResultResponse :=
  { status := "", detectionMethod := "", startingAyah := "", detectionConfidence := "",
    hypothesis := "bismillah", detectedRange := none, overallStatistics := none,
    perAyahResults := none, processingTime := 0, error := "", suggestion := "",
    transcript := "", transcriptLength := 0, wer := 0,
    ops := some [⟨"bism", "bism", "bism", "bism", "C", 0, 1⟩] }

def legacyResponse : RecordingResponse :=
  { recordingID := "rec-1", learnerID := "u1", ayahID := "001001", status := "done",
    createdAt := "", updatedAt := "", result := some legacyResult, error := "" }

/-- **C6 witness.** The single-operation legacy response maps to a result with
no statistics, one operation and verbatim fields. -/
theorem claim_C6_witness :
    ∃ m : RecordingResult, (mapRecording legacyResponse).result = some m ∧
      m.detectionMethod = "" ∧
      m.overallStatistics = none ∧
      lenO m.ops = lenO legacyResult.ops ∧
      ∀ i : Nat, i < lenO legacyResult.ops →
        (opAt m.ops i).refAr = (opRespAt legacyResult.ops i).refAr ∧
        (opAt m.ops i).refClean = (opRespAt legacyResult.ops i).refClean ∧
        (opAt m.ops i).hypAr = (opRespAt legacyResult.ops i).hypAr ∧
        (opAt m.ops i).hypClean = (opRespAt legacyResult.ops i).hypClean ∧
        (opAt m.ops i).op = (opRespAt legacyResult.ops i).op ∧
        (opAt m.ops i).tStart = (opRespAt legacyResult.ops i).tStart ∧
        (opAt m.ops i).tEnd = (opRespAt legacyResult.ops i).tEnd :=
  claim_C6_legacy_mapping legacyResponse legacyResult rfl
    ⟨rfl, rfl, rfl, rfl, rfl, rfl, rfl⟩

/-- Concrete auto-detect response whose `per_ayah_results` array is present
but empty. -/
def emptyDetectResult : ResultResponse :=
  { status := "matched", detectionMethod := "auto", startingAyah := "110001",
    detectionConfidence := "high", hypothesis := "", detectedRange := none,
    overallStatistics := none, perAyahResults := some [], processingTime := 0,
    error := "", suggestion := "", transcript := "", transcriptLength := 0,
    wer := 0, ops := none }

def emptyDetectResponse : RecordingResponse :=
  { recordingID := "rec-2", learnerID := "u1", ayahID := "", status := "done",
    createdAt := "", updatedAt := "", result := some emptyDetectResult, error := "" }

/-- **C5 counterexample.** On a response with `detection_method` set and a
present-but-empty `per_ayah_results` array, the mapped per-unit results field
is the nil slice (`none`), not a present empty sequence (`some []`): the
claim's "present, not absent/nil" is false. -/
theorem claim_C5_counterexample :
    (mapRecording emptyDetectResponse).result.map (fun m => m.perAyahResults)
      = some none ∧
    (some (none : Option (List PerAyahResult)))
      ≠ some (some ([] : List PerAyahResult)) := by
  constructor
  · rfl
  · intro h
    simpa using h

/-- **C5 (amended).** Normalizing a response with a detection marker and a
present-but-empty per-unit array does not fail (the mapper is total): it
yields a result that preserves the detection marker, but its per-unit results
field is left at the nil slice (`none`) — empty in length, yet absent rather
than a present empty sequence, since the mapper only assigns slices of
positive length. -/
theorem claim_C5_empty_per_ayah (r : RecordingResponse) (res : ResultResponse)
    (hres : r.result = some res)
    (hdm : res.detectionMethod ≠ "")
    (hempty : res.perAyahResults = some []) :
    ∃ m : RecordingResult, (mapRecording r).result = some m ∧
      m.detectionMethod = res.detectionMethod ∧
      m.detectionMethod ≠ "" ∧
      m.perAyahResults = none ∧
      lenO m.perAyahResults = 0 := by
  refine ⟨mapResult res, mapRecording_result r res hres, rfl, hdm, ?_, ?_⟩
  · simp [mapResult, hempty, lenO]
  · simp [mapResult, hempty, lenO]

/-- **C5 witness.** The concrete empty-array auto-detect response. -/
theorem claim_C5_witness :
    ∃ m : RecordingResult, (mapRecording emptyDetectResponse).result = some m ∧
      m.detectionMethod = emptyDetectResult.detectionMethod ∧
      m.detectionMethod ≠ "" ∧
      m.perAyahResults = none ∧
      lenO m.perAyahResults = 0 :=
  claim_C5_empty_per_ayah emptyDetectResponse emptyDetectResult rfl
    (by decide) rfl

/-! ### Recordings-list pagination — `formatRecordingsList` in the telegram
adapter

The Go function computes (with `itemsPerPage = 5` and int arithmetic):
`totalPages := (len + 5 - 1) / 5`; clamps `page` to `[0, totalPages-1]`;
`start := page * 5`; `end := min(start + 5, len)`; and then the render loop
reads `recordings[i]` for every `start ≤ i < end`.  `listBounds` is that
index computation: count and requested page in, (clamped page, start, end)
out. -/

def listBounds (count : Nat) (page : Int) : Int × Int × Int :=
  let totalPages : Int := ((count : Int) + 5 - 1) / 5
  let p1 : Int := if page < 0 then 0 else page
  let p2 : Int := if p1 ≥ totalPages then totalPages - 1 else p1
  let start : Int := p2 * 5
  let stop : Int := if start + 5 > (count : Int) then (count : Int) else start + 5
  (p2, start, stop)

/-- **C10 (code bug).** On an empty recordings list `totalPages = 0`, so the
clamp sets `page = -1` and `start = -5` while `end = 0`; the render loop
condition `start < end` holds, so the first iteration reads
`recordings[-5]` — an out-of-bounds index that panics at runtime.  The
claimed invariant `0 ≤ start ≤ end ≤ count` is violated exactly there (for a
non-empty list the clamp works as claimed). -/
theorem claim_C10_empty_list_out_of_bounds :
    listBounds 0 0 = (-1, -5, 0) ∧
    (listBounds 0 0).2.1 < (listBounds 0 0).2.2 ∧
    (listBounds 0 0).2.1 < 0 := by
  decide

end QuranBot
